import Mathlib

/-!
Verification of the variable-name classification engine in
`src/neo4j/load_adam_dc_graph.py` (`build_pattern_lookup`,
`build_suffix_lookup`, and the matching logic of
`create_of_class_relationships`).

Names are modelled as lists of characters (`Str`), mirroring Python
strings.  Python dictionaries are modelled as association lists with
first-key-wins update (keys stay unique, later assignment to the same
key replaces the value in place), which is exactly CPython's insertion
ordered dict as used by the script.  The Neo4j session calls inside
`create_of_class_relationships` only persist each match; they are
modelled as an always-succeeding sink, so classification is the pure
decision logic of the three match tiers.
-/

namespace ADaMClassify

/-- A Python string, modelled as its list of characters. -/
abbrev Str := List Char

/-- The Boolean `s.startswith(pat)` test, character by character. -/
def startsL : Str → Str → Bool
  | [], _ => true
  | _ :: _, [] => false
  | p :: ps, c :: cs => p == c && startsL ps cs

/-- The Boolean `s.endswith(pat)` test (`endsL pat s`). -/
def endsL (pat s : Str) : Bool := startsL pat.reverse s.reverse

/-- Fuel-indexed worker for `replaceL`; the fuel bounds the number of
characters still to scan, so `s.length` fuel always suffices. -/
def replaceFuel (pat rep : Str) : Nat → Str → Str
  | 0, s => s
  | fuel + 1, s =>
    match s with
    | [] => []
    | c :: rest =>
      if !pat.isEmpty && startsL pat s then
        rep ++ replaceFuel pat rep fuel (s.drop pat.length)
      else
        c :: replaceFuel pat rep fuel rest

/-- Python's `s.replace(pat, rep)`: replace every non-overlapping
occurrence of `pat`, scanning left to right.  (The script never calls
it with an empty pattern.) -/
def replaceL (s pat rep : Str) : Str := replaceFuel pat rep s.length s

/-- The `re.search(r"[a-z]", var_name)` test of `build_pattern_lookup`:
does the name contain an ASCII lowercase letter (a placeholder)? -/
def hasLower (s : Str) : Bool := s.any (fun c => 'a' ≤ c && c ≤ 'z')

/-- The `var_name.startswith("--")` test combined with `var_name[2:]`:
`some rest` when the name is domain-suffix shaped, `none` otherwise. -/
def dropDomain (t : Str) : Option Str :=
  match t with
  | c1 :: c2 :: rest => if c1 = '-' ∧ c2 = '-' then some rest else none
  | _ => none

/-- Template-to-regex compilation of `build_pattern_lookup`: the
placeholder substitutions applied in the source's fixed order
(`xx`, `zz`, `y`, `w`, `x`), then anchoring with `^...$`. -/
def toRegex (name : Str) : Str :=
  let r1 := replaceL name ("xx".toList) ("(\\d\x7b2\x7d)".toList)
  let r2 := replaceL r1 ("zz".toList) ("(\\d\x7b2\x7d)".toList)
  let r3 := replaceL r2 ("y".toList) ("(\\d+)".toList)
  let r4 := replaceL r3 ("w".toList) ("(\\d+)".toList)
  let r5 := replaceL r4 ("x".toList) ("(\\d)".toList)
  '^' :: (r5 ++ ['$'])

/-- Insertion-ordered dictionary update, as in CPython: if the key is
present its value is replaced in place, otherwise the pair is appended.
All dictionaries in the script start empty, so keys are unique. -/
def dictInsert : List (Str × Str) → Str → Str → List (Str × Str)
  | [], k, v => [(k, v)]
  | p :: ps, k, v => if p.1 == k then (p.1, v) :: ps else p :: dictInsert ps k v

/-- Dictionary lookup `d[k]`, as an `Option`. -/
def lookupD : List (Str × Str) → Str → Option Str
  | [], _ => none
  | p :: ps, k => if p.1 == k then some p.2 else lookupD ps k

/-- First element of the list satisfying the test, scanning left to
right — a Python `for ... if cond: ... break` loop over names. -/
def findFirst (p : Str → Bool) : List Str → Option Str
  | [] => none
  | a :: as => if p a then some a else findFirst p as

/-- First pair of the list satisfying the test, scanning left to
right — a Python `for ... if cond: ... break` loop over dict items. -/
def findFirstP (p : Str × Str → Bool) : List (Str × Str) → Option (Str × Str)
  | [] => none
  | q :: qs => if p q then some q else findFirstP p qs

/-- One step of the `build_pattern_lookup` loop body: skip `--`
templates, and for a template containing a lowercase letter store
`regex -> template name` in the dictionary. -/
def patStep (d : List (Str × Str)) (t : Str) : List (Str × Str) :=
  if (dropDomain t).isSome then d
  else if hasLower t then dictInsert d (toRegex t) t
  else d

/-- The `build_pattern_lookup` function: the regex-keyed pattern
dictionary, and the set of all class-variable names (the exact set),
built from every catalogue entry. -/
def build_pattern_lookup (cvs : List Str) : List (Str × Str) × List Str :=
  (cvs.foldl patStep [], cvs)

/-- One step of the `build_suffix_lookup` loop body: for a `--`
template store `suffix -> template name`. -/
def suffStep (d : List (Str × Str)) (t : Str) : List (Str × Str) :=
  match dropDomain t with
  | some suf => dictInsert d suf t
  | none => d

/-- The `build_suffix_lookup` function. -/
def build_suffix_lookup (cvs : List Str) : List (Str × Str) :=
  cvs.foldl suffStep []

/-- Stable insertion keeping strictly longer strings first; equal
lengths keep their existing order, as Python's stable `sorted`. -/
def insertByLen (s : Str) : List Str → List Str
  | [] => [s]
  | t :: ts => if t.length < s.length then s :: t :: ts else t :: insertByLen s ts

/-- The `sorted(suffix_lookup.keys(), key=len, reverse=True)` call:
a stable sort by descending length. -/
def sortByLenDesc (l : List Str) : List Str :=
  l.foldl (fun acc u => insertByLen u acc) []

/-- Abstract syntax of the regex fragments the script generates:
literal characters and the three digit groups. -/
inductive RItem
  | lit (c : Char)
  | d1
  | d2
  | dplus
deriving DecidableEq, Repr

/-- Characters that are special to Python `re` and are not part of a
recognised generated group; a regex containing one of them outside a
group is not accepted by this model (for an unbalanced parenthesis,
Python's `re.compile` raises). -/
def metaChar (c : Char) : Bool :=
  c == '(' || c == ')' || c == '\x7b' || c == '\x7d' || c == '\\' ||
  c == '+' || c == '*' || c == '?' || c == '[' || c == ']' ||
  c == '|' || c == '^' || c == '$' || c == '.'

/-- Parse the body of a generated regex into items: the three digit
groups emitted by `toRegex` plus literal characters.  Any other use of
a regex metacharacter fails, modelling `re.compile` errors. -/
def parseItems : Str → Option (List RItem)
  | [] => some []
  | '(' :: '\\' :: 'd' :: '\x7b' :: '2' :: '\x7d' :: ')' :: rest =>
    (parseItems rest).map (fun l => RItem.d2 :: l)
  | '(' :: '\\' :: 'd' :: '+' :: ')' :: rest =>
    (parseItems rest).map (fun l => RItem.dplus :: l)
  | '(' :: '\\' :: 'd' :: ')' :: rest =>
    (parseItems rest).map (fun l => RItem.d1 :: l)
  | c :: rest =>
    if metaChar c then none else (parseItems rest).map (fun l => RItem.lit c :: l)

/-- Strip the `^`/`$` anchors that `toRegex` always adds. -/
def stripAnchors : Str → Option Str
  | '^' :: rest => if rest.getLast? == some '$' then some rest.dropLast else none
  | _ => none

/-- Fuel-indexed backtracking matcher for item lists; `s.length + 1`
fuel always suffices because every step consumes a character. -/
def matchFuel : Nat → List RItem → Str → Bool
  | 0, _, _ => false
  | fuel + 1, items, s =>
    match items, s with
    | [], [] => true
    | [], _ :: _ => false
    | _ :: _, [] => false
    | RItem.lit c :: rest, d :: ds => c == d && matchFuel fuel rest ds
    | RItem.d1 :: rest, d :: ds => d.isDigit && matchFuel fuel rest ds
    | RItem.d2 :: rest, d :: ds =>
      match ds with
      | [] => false
      | e :: es => d.isDigit && e.isDigit && matchFuel fuel rest es
    | RItem.dplus :: rest, d :: ds =>
      d.isDigit && (matchFuel fuel rest ds || matchFuel fuel (RItem.dplus :: rest) ds)

/-- Does the item list match the whole string?  Backtracking makes this
exactly Python's anchored match success for the generated regexes. -/
def matchItems (items : List RItem) (s : Str) : Bool :=
  matchFuel (s.length + 1) items s

/-- Python's `re.compile(regex).match(name)` success for an anchored
generated regex: full-string match. -/
def reMatch (regex name : Str) : Bool :=
  match stripAnchors regex with
  | some mid =>
    match parseItems mid with
    | some items => matchItems items name
    | none => false
  | none => false

/-- The `compiled_patterns = \x7bre.compile(p): var_name ...\x7d`
comprehension of `create_of_class_relationships`: compiles every
pattern key; `none` models the uncaught `re.error` that aborts the
build when any generated regex is invalid. -/
def compilePatterns : List (Str × Str) → Option (List (List RItem × Str))
  | [] => some []
  | (r, v) :: rest =>
    match stripAnchors r with
    | none => none
    | some mid =>
      match parseItems mid with
      | none => none
      | some items =>
        match compilePatterns rest with
        | none => none
        | some l => some ((items, v) :: l)

/-- The tier at which a concrete name matched. -/
inductive Tier
  | exact
  | suffix
  | pattern
deriving DecidableEq, Repr

/-- The per-variable matching logic of `create_of_class_relationships`,
parameterised by the four lookup structures: exact set first, then
first matching suffix in the length-sorted order, then first matching
pattern in dictionary (catalogue) order. -/
def classifyWith (cvnames sortedSuf : List Str) (sl pl : List (Str × Str))
    (name : Str) : Option (Tier × Str) :=
  if cvnames.contains name then some (Tier.exact, name)
  else
    match findFirst (fun suf => endsL suf name) sortedSuf with
    | some suf =>
      match lookupD sl suf with
      | some cv => some (Tier.suffix, cv)
      | none => none
    | none =>
      match findFirstP (fun q => reMatch q.1 name) pl with
      | some q => some (Tier.pattern, q.2)
      | none => none

/-- Classification of one concrete name against a catalogue, exactly as
`create_of_class_relationships` builds its lookups and then matches. -/
def classify (cvs : List Str) (name : Str) : Option (Tier × Str) :=
  classifyWith (build_pattern_lookup cvs).2
    (sortByLenDesc ((build_suffix_lookup cvs).map Prod.fst))
    (build_suffix_lookup cvs)
    (build_pattern_lookup cvs).1
    name

/-! ### Helper lemmas about the dictionary model -/

theorem lookupD_dictInsert_self (d : List (Str × Str)) (k v : Str) :
    lookupD (dictInsert d k v) k = some v := by
  induction d with
  | nil => simp [dictInsert, lookupD]
  | cons p ps ih =>
    by_cases h : (p.1 == k) = true
    · simp [dictInsert, lookupD, h]
    · simp only [dictInsert, if_neg h]
      simp [lookupD, h, ih]

theorem lookupD_dictInsert_ne (d : List (Str × Str)) (k v k' : Str)
    (hne : k ≠ k') : lookupD (dictInsert d k v) k' = lookupD d k' := by
  induction d with
  | nil =>
    have hb : ¬ ((k == k') = true) := fun hb2 => hne (eq_of_beq hb2)
    simp [dictInsert, lookupD, hb]
  | cons p ps ih =>
    by_cases h : (p.1 == k) = true
    · have hb : ¬ ((p.1 == k') = true) :=
        fun hb2 => hne ((eq_of_beq h) ▸ eq_of_beq hb2)
      simp [dictInsert, lookupD, h, hb]
    · by_cases hb2 : (p.1 == k') = true
      · simp [dictInsert, lookupD, h, hb2]
      · simp [dictInsert, lookupD, h, hb2, ih]

theorem mem_dictInsert {q : Str × Str} {d : List (Str × Str)} {k v : Str}
    (h : q ∈ dictInsert d k v) : q.1 = k ∨ q ∈ d := by
  induction d with
  | nil =>
    rw [show dictInsert [] k v = [(k, v)] from rfl] at h
    rcases List.mem_singleton.mp h with rfl
    exact Or.inl rfl
  | cons p ps ih =>
    by_cases hb : (p.1 == k) = true
    · rw [show dictInsert (p :: ps) k v = (p.1, v) :: ps from by
        simp [dictInsert, hb]] at h
      rcases List.mem_cons.mp h with rfl | hmem
      · exact Or.inl (eq_of_beq hb)
      · exact Or.inr (List.mem_cons_of_mem _ hmem)
    · rw [show dictInsert (p :: ps) k v = p :: dictInsert ps k v from by
        simp [dictInsert, hb]] at h
      rcases List.mem_cons.mp h with rfl | hmem
      · exact Or.inr (List.mem_cons_self _ _)
      · rcases ih hmem with hk | hd
        · exact Or.inl hk
        · exact Or.inr (List.mem_cons_of_mem _ hd)

/-! ### Helper lemmas about domain-suffix shape -/

theorem dropDomain_eq_some {t r : Str} (h : dropDomain t = some r) :
    t = '-' :: '-' :: r := by
  cases t with
  | nil => simp [dropDomain] at h
  | cons c1 t1 =>
    cases t1 with
    | nil => simp [dropDomain] at h
    | cons c2 rest =>
      simp only [dropDomain] at h
      split at h
      · rename_i hc
        obtain ⟨h1, h2⟩ := hc
        cases h
        rw [h1, h2]
      · exact absurd h (by simp)

theorem dropDomain_dd (r : Str) : dropDomain ('-' :: '-' :: r) = some r := by
  simp [dropDomain]

/-! ### Key presence in the pattern dictionary -/

theorem any_key_dictInsert_self (d : List (Str × Str)) (k v : Str) :
    (dictInsert d k v).any (fun p => p.1 == k) = true := by
  induction d with
  | nil => simp [dictInsert]
  | cons p ps ih =>
    by_cases hb : (p.1 == k) = true
    · simp [dictInsert, hb]
    · rw [show dictInsert (p :: ps) k v = p :: dictInsert ps k v from by
        simp [dictInsert, hb]]
      simp [ih]

theorem any_key_dictInsert_mono (d : List (Str × Str)) (k v k' : Str)
    (h : d.any (fun p => p.1 == k') = true) :
    (dictInsert d k v).any (fun p => p.1 == k') = true := by
  induction d with
  | nil => simp at h
  | cons p ps ih =>
    by_cases hb : (p.1 == k) = true
    · rw [show dictInsert (p :: ps) k v = (p.1, v) :: ps from by
        simp [dictInsert, hb]]
      simpa using h
    · rw [show dictInsert (p :: ps) k v = p :: dictInsert ps k v from by
        simp [dictInsert, hb]]
      simp only [List.any_cons] at h ⊢
      rcases Bool.or_eq_true_iff.mp h with h1 | h2
      · exact Bool.or_eq_true_iff.mpr (Or.inl h1)
      · exact Bool.or_eq_true_iff.mpr (Or.inr (ih h2))

theorem any_key_patStep_mono (d : List (Str × Str)) (t k' : Str)
    (h : d.any (fun p => p.1 == k') = true) :
    (patStep d t).any (fun p => p.1 == k') = true := by
  unfold patStep
  split
  · exact h
  · split
    · exact any_key_dictInsert_mono d (toRegex t) t k' h
    · exact h

theorem foldl_patStep_mono (cvs : List Str) (d : List (Str × Str)) (k' : Str)
    (h : d.any (fun p => p.1 == k') = true) :
    (cvs.foldl patStep d).any (fun p => p.1 == k') = true := by
  induction cvs generalizing d with
  | nil => exact h
  | cons a rest ih =>
    rw [List.foldl_cons]
    exact ih (patStep d a) (any_key_patStep_mono d a k' h)

theorem pattern_key_present (cvs : List Str) (d : List (Str × Str)) (t : Str)
    (h1 : t ∈ cvs) (h2 : dropDomain t = none) (h3 : hasLower t = true) :
    (cvs.foldl patStep d).any (fun p => p.1 == toRegex t) = true := by
  induction cvs generalizing d with
  | nil => exact absurd h1 (List.not_mem_nil t)
  | cons a rest ih =>
    rw [List.foldl_cons]
    rcases List.mem_cons.mp h1 with rfl | hmem
    · have hstep : patStep d t = dictInsert d (toRegex t) t := by
        unfold patStep
        rw [h2]
        simp [h3]
      rw [hstep]
      exact foldl_patStep_mono rest _ _ (any_key_dictInsert_self d (toRegex t) t)
    · exact ih (patStep d a) hmem

/-! ### The suffix dictionary: suffix determines its template -/

theorem suffix_last_wins (cvs : List Str) (d : List (Str × Str)) (suf : Str)
    (h : ('-' :: '-' :: suf) ∈ cvs ∨ lookupD d suf = some ('-' :: '-' :: suf)) :
    lookupD (cvs.foldl suffStep d) suf = some ('-' :: '-' :: suf) := by
  induction cvs generalizing d with
  | nil =>
    rcases h with h | h
    · exact absurd h (List.not_mem_nil _)
    · exact h
  | cons a rest ih =>
    rw [List.foldl_cons]
    rcases h with hmem | hlk
    · rcases List.mem_cons.mp hmem with rfl | hmem2
      · refine ih _ (Or.inr ?_)
        rw [show suffStep d ('-' :: '-' :: suf) = dictInsert d suf ('-' :: '-' :: suf) from by
          unfold suffStep; rw [dropDomain_dd]]
        exact lookupD_dictInsert_self d suf _
      · exact ih _ (Or.inl hmem2)
    · refine ih _ (Or.inr ?_)
      unfold suffStep
      cases hda : dropDomain a with
      | none => exact hlk
      | some u =>
        have ha : a = '-' :: '-' :: u := dropDomain_eq_some hda
        by_cases he : u = suf
        · subst he
          rw [ha, lookupD_dictInsert_self]
        · rw [lookupD_dictInsert_ne d u a suf he]
          exact hlk

/-- Every key of the suffix dictionary comes from a domain-suffix
template of the catalogue. -/
theorem suffix_keys_from_templates (cvs : List Str) (d : List (Str × Str))
    (q : Str × Str) (h : q ∈ cvs.foldl suffStep d) :
    q ∈ d ∨ ∃ t ∈ cvs, dropDomain t = some q.1 := by
  induction cvs generalizing d with
  | nil => exact Or.inl h
  | cons a rest ih =>
    rw [List.foldl_cons] at h
    rcases ih (suffStep d a) h with hin | ⟨t, ht, hdrop⟩
    · unfold suffStep at hin
      cases hda : dropDomain a with
      | none =>
        rw [hda] at hin
        exact Or.inl hin
      | some u =>
        rw [hda] at hin
        rcases mem_dictInsert hin with hk | hd
        · exact Or.inr ⟨a, List.mem_cons_self _ _, by rw [hda, hk]⟩
        · exact Or.inl hd
    · exact Or.inr ⟨t, List.mem_cons_of_mem _ ht, hdrop⟩

/-! ### Tier-level helper lemmas about the classifier -/

theorem exact_tier_of_contains (cvs : List Str) (name : Str)
    (h : ((build_pattern_lookup cvs).2).contains name = true) :
    classify cvs name = some (Tier.exact, name) := by
  unfold classify classifyWith
  rw [h, if_pos rfl]

theorem classifyWith_suffix_result (cvnames sortedSuf : List Str)
    (sl pl : List (Str × Str)) (name suf cv : Str)
    (h1 : cvnames.contains name = false)
    (h2 : findFirst (fun u => endsL u name) sortedSuf = some suf)
    (h3 : lookupD sl suf = some cv) :
    classifyWith cvnames sortedSuf sl pl name = some (Tier.suffix, cv) := by
  unfold classifyWith
  rw [h1]
  rw [if_neg (by simp)]
  rw [h2]
  show (match lookupD sl suf with
    | some cv => some (Tier.suffix, cv)
    | none => none) = some (Tier.suffix, cv)
  rw [h3]

theorem classifyWith_no_suffix_pattern (cvnames sortedSuf : List Str)
    (sl pl : List (Str × Str)) (name : Str) (q : Str × Str)
    (h1 : cvnames.contains name = false)
    (h2 : findFirst (fun u => endsL u name) sortedSuf = none)
    (h3 : findFirstP (fun r => reMatch r.1 name) pl = some q) :
    classifyWith cvnames sortedSuf sl pl name = some (Tier.pattern, q.2) := by
  unfold classifyWith
  rw [h1]
  rw [if_neg (by simp)]
  rw [h2]
  show (match findFirstP (fun r => reMatch r.1 name) pl with
    | some r => some (Tier.pattern, r.2)
    | none => none) = some (Tier.pattern, q.2)
  rw [h3]

theorem findFirstP_append_none (p : Str × Str → Bool)
    (l1 l2 : List (Str × Str)) (h : ∀ q ∈ l1, p q = false) :
    findFirstP p (l1 ++ l2) = findFirstP p l2 := by
  induction l1 with
  | nil => rfl
  | cons a as ih =>
    rw [List.cons_append]
    rw [show findFirstP p (a :: (as ++ l2)) =
      if p a then some a else findFirstP p (as ++ l2) from rfl]
    rw [h a (List.mem_cons_self _ _)]
    rw [if_neg (by simp)]
    exact ih (fun q hq => h q (List.mem_cons_of_mem _ hq))

/-! ### Claim theorems -/

/-- C1: classification applies the tiers strictly in the order exact,
suffix, pattern: a concrete name that is a member of the exact set is
matched at tier exact with itself as the matched template, and the
suffix and pattern tiers are never consulted for it. -/
theorem C1_exact_tier_first (cvs : List Str) (name : Str)
    (h : ((build_pattern_lookup cvs).2).contains name = true) :
    classify cvs name = some (Tier.exact, name) :=
  exact_tier_of_contains cvs name h

/-- Witness for C1 at the catalogue `["USUBJID"]` and name `USUBJID`. -/
theorem C1_exact_tier_first_witness :
    classify ["USUBJID".toList] ("USUBJID".toList) =
      some (Tier.exact, "USUBJID".toList) :=
  C1_exact_tier_first ["USUBJID".toList] ("USUBJID".toList) (by decide)

/-- C2: template compilation substitutes the two-character two-digit
tokens (`xx`, `zz`) before the open-digit-run tokens (`y`, `w`) before
the single-digit token (`x`), and anchors the pattern over the full
string, so a template with both a two-digit slot and a single-digit
slot carves out the two-digit region as one unit. -/
theorem C2_substitution_order :
    (∀ t : Str, ∃ mid : Str, toRegex t = '^' :: (mid ++ ['$'])) ∧
    toRegex ("AxxBx".toList) = ("^A(\\d\x7b2\x7d)B(\\d)$".toList) ∧
    toRegex ("ANLzzFL".toList) = ("^ANL(\\d\x7b2\x7d)FL$".toList) ∧
    reMatch (toRegex ("AxxBx".toList)) ("A12B3".toList) = true ∧
    reMatch (toRegex ("AxxBx".toList)) ("A1B23".toList) = false ∧
    reMatch (toRegex ("AxxBx".toList)) ("A123B4".toList) = false := by
  refine ⟨fun t => ⟨replaceL (replaceL (replaceL (replaceL (replaceL t
    ("xx".toList) ("(\\d\x7b2\x7d)".toList)) ("zz".toList) ("(\\d\x7b2\x7d)".toList))
    ("y".toList) ("(\\d+)".toList)) ("w".toList) ("(\\d+)".toList))
    ("x".toList) ("(\\d)".toList), rfl⟩, ?_, ?_, ?_, ?_, ?_⟩
  · decide
  · decide
  · decide
  · decide
  · decide

/-- C3: the suffix tier checks registered suffixes in descending length
order and stops at the first trailing match, so with suffixes `SEQ` and
`XSEQ` registered, every name ending in `XSEQ` (and not itself a
catalogue entry) resolves to the `--XSEQ` template, never `--SEQ`. -/
theorem C3_longest_suffix_precedence (name : Str)
    (h1 : (["--SEQ".toList, "--XSEQ".toList] : List Str).contains name = false)
    (h2 : endsL ("XSEQ".toList) name = true) :
    classify ["--SEQ".toList, "--XSEQ".toList] name =
      some (Tier.suffix, "--XSEQ".toList) := by
  have e : classify ["--SEQ".toList, "--XSEQ".toList] name =
      classifyWith ["--SEQ".toList, "--XSEQ".toList]
        ["XSEQ".toList, "SEQ".toList]
        [("SEQ".toList, "--SEQ".toList), ("XSEQ".toList, "--XSEQ".toList)]
        [] name := rfl
  rw [e]
  refine classifyWith_suffix_result _ _ _ _ name ("XSEQ".toList) ("--XSEQ".toList)
    h1 ?_ (by decide)
  show (if endsL ("XSEQ".toList) name then some ("XSEQ".toList)
    else findFirst (fun u => endsL u name) ["SEQ".toList]) = some ("XSEQ".toList)
  rw [h2, if_pos rfl]

/-- Witness for C3 at the concrete name `AEXSEQ`. -/
theorem C3_longest_suffix_precedence_witness :
    classify ["--SEQ".toList, "--XSEQ".toList] ("AEXSEQ".toList) =
      some (Tier.suffix, "--XSEQ".toList) :=
  C3_longest_suffix_precedence ("AEXSEQ".toList) (by decide) (by decide)

/-- C4: a fixed two-digit slot matches exactly two digits (one or three
digits do not match) and an open digit-run slot matches one or more
digits with no upper bound but never zero digits. -/
theorem C4_slot_widths :
    classify ["TRTxxP".toList] ("TRT01P".toList) =
      some (Tier.pattern, "TRTxxP".toList) ∧
    classify ["TRTxxP".toList] ("TRT1P".toList) = none ∧
    classify ["TRTxxP".toList] ("TRT123P".toList) = none ∧
    classify ["AGEGRy".toList] ("AGEGR12".toList) =
      some (Tier.pattern, "AGEGRy".toList) ∧
    classify ["AGEGRy".toList] ("AGEGR".toList) = none ∧
    classify ["AGEGRy".toList] ("AGEGR1234567890".toList) =
      some (Tier.pattern, "AGEGRy".toList) := by
  refine ⟨?_, ?_, ?_, ?_, ?_, ?_⟩
  · decide
  · decide
  · decide
  · decide
  · decide
  · decide

/-- C5 counterexample: a catalogue in which the same suffix is defined
twice builds to exactly the same suffix map as the deduplicated
catalogue — the collision leaves no trace, so nothing is flagged; the
claim that the ambiguity is reported as a warning is false. -/
theorem C5_counterexample :
    build_suffix_lookup ["--SEQ".toList, "--SEQ".toList] =
      build_suffix_lookup ["--SEQ".toList] := by
  decide

/-- C5 amended: two distinct domain-suffix templates can never reduce
to the same suffix (the template is the marker plus the suffix), so a
collision only arises from a duplicated entry; the later occurrence
silently overwrites the identical earlier one, the build never crashes,
and no warning of any kind is emitted: every domain-suffix template of
the catalogue is recovered intact from its suffix. -/
theorem C5_later_definition_wins (cvs : List Str) (suf : Str)
    (h : ('-' :: '-' :: suf) ∈ cvs) :
    lookupD (build_suffix_lookup cvs) suf = some ('-' :: '-' :: suf) :=
  suffix_last_wins cvs [] suf (Or.inl h)

/-- Witness for C5 on the duplicated catalogue `["--SEQ", "--SEQ"]`. -/
theorem C5_later_definition_wins_witness :
    lookupD (build_suffix_lookup ["--SEQ".toList, "--SEQ".toList])
      ("SEQ".toList) = some ('-' :: '-' :: "SEQ".toList) :=
  C5_later_definition_wins ["--SEQ".toList, "--SEQ".toList] ("SEQ".toList)
    (by decide)

/-- C6: the pattern tier scans the compiled patterns in the pattern
dictionary's order (the catalogue's definition order) and the first
pattern whose anchored match succeeds determines the result; patterns
occurring later are not considered even if they also match. -/
theorem C6_pattern_first_match (cvs : List Str) (name r v : Str)
    (l1 l2 : List (Str × Str))
    (h1 : ((build_pattern_lookup cvs).2).contains name = false)
    (h2 : findFirst (fun u => endsL u name)
      (sortByLenDesc ((build_suffix_lookup cvs).map Prod.fst)) = none)
    (h3 : (build_pattern_lookup cvs).1 = l1 ++ (r, v) :: l2)
    (h4 : ∀ q ∈ l1, reMatch q.1 name = false)
    (h5 : reMatch r name = true) :
    classify cvs name = some (Tier.pattern, v) := by
  unfold classify
  refine classifyWith_no_suffix_pattern _ _ _ _ name (r, v) h1 h2 ?_
  rw [h3, findFirstP_append_none _ _ _ h4]
  show (if reMatch r name then some (r, v)
    else findFirstP (fun q => reMatch q.1 name) l2) = some (r, v)
  rw [h5, if_pos rfl]

/-- Witness for C6: with catalogue `["Ayy", "Ay"]` both compiled
patterns match `A12`, and the first one in definition order wins. -/
theorem C6_pattern_first_match_witness :
    reMatch (toRegex ("Ay".toList)) ("A12".toList) = true ∧
    classify ["Ayy".toList, "Ay".toList] ("A12".toList) =
      some (Tier.pattern, "Ayy".toList) :=
  ⟨by decide,
    C6_pattern_first_match ["Ayy".toList, "Ay".toList] ("A12".toList)
      (toRegex ("Ayy".toList)) ("Ayy".toList) []
      [(toRegex ("Ay".toList), "Ay".toList)]
      (by decide) (by decide) (by decide)
      (fun q hq => absurd hq (List.not_mem_nil q)) (by decide)⟩

/-- C7 counterexample: the catalogue `["QQ(x", "AGEGRy"]` contains a
malformed template — `QQ(x` has a placeholder but its generated regex
`^QQ((\d)$` has an unbalanced parenthesis — and compiling the pattern
dictionary fails for the whole build instead of skipping the offending
template: index construction is fatal for this input. -/
theorem C7_counterexample :
    compilePatterns ((build_pattern_lookup ["QQ(x".toList, "AGEGRy".toList]).1)
      = none := by
  decide

/-- C7 amended: index construction never skips any template and emits
no warning: every template that is not domain-suffix shaped and
contains a lowercase letter contributes its generated regex as a key of
the pattern lookup, whether or not that regex is compilable; a template
whose generated regex is invalid then makes pattern compilation fail
for the whole build. -/
theorem C7_no_template_skipped (cvs : List Str) (t : Str) (h1 : t ∈ cvs)
    (h2 : dropDomain t = none) (h3 : hasLower t = true) :
    ((build_pattern_lookup cvs).1).any (fun p => p.1 == toRegex t) = true :=
  pattern_key_present cvs [] t h1 h2 h3

/-- Witness for C7: the malformed template `QQ(x` is itself not
skipped — its broken regex is a key of the pattern lookup. -/
theorem C7_no_template_skipped_witness :
    ((build_pattern_lookup ["QQ(x".toList, "AGEGRy".toList]).1).any
      (fun p => p.1 == toRegex ("QQ(x".toList)) = true :=
  C7_no_template_skipped ["QQ(x".toList, "AGEGRy".toList] ("QQ(x".toList)
    (by decide) (by decide) (by decide)

/-- C8 counterexample: for the catalogue containing the bare
two-character marker `--`, the suffix map has the empty string as a
key, so the claim that every key is non-empty — including for that
template — is false. -/
theorem C8_counterexample :
    ¬ (∀ p ∈ build_suffix_lookup ["--".toList], p.1 ≠ ([] : Str)) := by
  decide

/-- C8 amended: every key of the suffix map is non-empty provided the
catalogue does not contain the template consisting of the bare
two-character marker `--`; that template alone produces an empty
suffix key. -/
theorem C8_suffix_keys_nonempty (cvs : List Str) (q : Str × Str)
    (hdd : ("--".toList) ∉ cvs) (hq : q ∈ build_suffix_lookup cvs) :
    q.1 ≠ ([] : Str) := by
  rcases suffix_keys_from_templates cvs [] q hq with h | ⟨t, ht, hdrop⟩
  · exact absurd h (List.not_mem_nil q)
  · intro hnil
    rw [hnil] at hdrop
    have h2 : t = '-' :: '-' :: [] := dropDomain_eq_some hdrop
    have h3 : t = "--".toList := by rw [h2]; rfl
    exact hdd (h3 ▸ ht)

/-- Witness for C8 on the catalogue `["--SEQ"]`. -/
theorem C8_suffix_keys_nonempty_witness :
    ("SEQ".toList, "--SEQ".toList).1 ≠ ([] : Str) :=
  C8_suffix_keys_nonempty ["--SEQ".toList] ("SEQ".toList, "--SEQ".toList)
    (by decide) (by decide)

/-- C9: the exact set contains every class-variable name of the
catalogue, including domain-suffix-shaped and placeholder-containing
names, so a concrete name equal to such a template is classified at
tier exact, never via the suffix or pattern tier. -/
theorem C9_exact_set_complete (cvs : List Str) (t : Str) (h : t ∈ cvs) :
    ((build_pattern_lookup cvs).2).contains t = true ∧
      classify cvs t = some (Tier.exact, t) := by
  have hc : ((build_pattern_lookup cvs).2).contains t = true :=
    List.elem_eq_true_of_mem h
  exact ⟨hc, exact_tier_of_contains cvs t hc⟩

/-- Witness for C9 at the suffix-shaped template `--SEQ` and the
placeholder template `TRTxxP` of the catalogue `["--SEQ", "TRTxxP"]`. -/
theorem C9_exact_set_complete_witness :
    (((build_pattern_lookup ["--SEQ".toList, "TRTxxP".toList]).2).contains
        ("--SEQ".toList) = true ∧
      classify ["--SEQ".toList, "TRTxxP".toList] ("--SEQ".toList) =
        some (Tier.exact, "--SEQ".toList)) ∧
    (((build_pattern_lookup ["--SEQ".toList, "TRTxxP".toList]).2).contains
        ("TRTxxP".toList) = true ∧
      classify ["--SEQ".toList, "TRTxxP".toList] ("TRTxxP".toList) =
        some (Tier.exact, "TRTxxP".toList)) :=
  ⟨C9_exact_set_complete _ _ (by decide), C9_exact_set_complete _ _ (by decide)⟩

/-- C10: the pattern lookup is keyed by the generated regex string, so
two templates compiling to the same regex (here `TRTxxP` and `TRTzzP`)
leave a single entry mapping to the later template in catalogue order,
and the pattern tier can never return the earlier template. -/
theorem C10_regex_key_collision :
    toRegex ("TRTxxP".toList) = toRegex ("TRTzzP".toList) ∧
    (build_pattern_lookup ["TRTxxP".toList, "TRTzzP".toList]).1 =
      [(toRegex ("TRTxxP".toList), "TRTzzP".toList)] ∧
    ∀ name : Str,
      classify ["TRTxxP".toList, "TRTzzP".toList] name ≠
        some (Tier.pattern, "TRTxxP".toList) := by
  refine ⟨by decide, by decide, ?_⟩
  intro name
  have e : classify ["TRTxxP".toList, "TRTzzP".toList] name =
      classifyWith ["TRTxxP".toList, "TRTzzP".toList] [] []
        [(toRegex ("TRTxxP".toList), "TRTzzP".toList)] name := rfl
  rw [e]
  unfold classifyWith
  by_cases h : ((["TRTxxP".toList, "TRTzzP".toList] : List Str).contains name) = true
  · rw [h, if_pos rfl]
    intro hcontra
    have h2 : (Tier.exact, name) = (Tier.pattern, "TRTxxP".toList) :=
      Option.some.inj hcontra
    have h3 : Tier.exact = Tier.pattern := congrArg Prod.fst h2
    exact absurd h3 (by decide)
  · rw [if_neg h]
    show (match findFirst (fun u => endsL u name) [] with
      | some suf =>
        match lookupD [] suf with
        | some cv => some (Tier.suffix, cv)
        | none => none
      | none =>
        match findFirstP (fun q => reMatch q.1 name)
          [(toRegex ("TRTxxP".toList), "TRTzzP".toList)] with
        | some q => some (Tier.pattern, q.2)
        | none => none) ≠ some (Tier.pattern, "TRTxxP".toList)
    show (match findFirstP (fun q => reMatch q.1 name)
        [(toRegex ("TRTxxP".toList), "TRTzzP".toList)] with
      | some q => some (Tier.pattern, q.2)
      | none => none) ≠ some (Tier.pattern, "TRTxxP".toList)
    by_cases hm : reMatch (toRegex ("TRTxxP".toList)) name = true
    · rw [show findFirstP (fun q => reMatch q.1 name)
          [(toRegex ("TRTxxP".toList), "TRTzzP".toList)] =
          some (toRegex ("TRTxxP".toList), "TRTzzP".toList) from by
        unfold findFirstP
        rw [hm, if_pos rfl]]
      intro hcontra
      have := Option.some.inj hcontra
      have h2 : ("TRTzzP".toList : Str) = "TRTxxP".toList :=
        congrArg Prod.snd this
      exact absurd h2 (by decide)
    · rw [show findFirstP (fun q => reMatch q.1 name)
          [(toRegex ("TRTxxP".toList), "TRTzzP".toList)] = none from by
        unfold findFirstP
        rw [if_neg hm]
        rfl]
      intro hcontra
      exact Option.noConfusion hcontra

/-- Witness for C10 at the concrete name `TRT01P` (the result there is
the later template `TRTzzP`, so it is in particular not `TRTxxP`). -/
theorem C10_regex_key_collision_witness :
    classify ["TRTxxP".toList, "TRTzzP".toList] ("TRT01P".toList) ≠
      some (Tier.pattern, "TRTxxP".toList) :=
  C10_regex_key_collision.2.2 ("TRT01P".toList)

end ADaMClassify
